import Mathlib

/-!
Shallow embedding of `src/components/auth/sign-up-form.tsx`: the form
values record, the yup validation schema, the submit handler (as a trace
of primitive effects), the field-array operations, and the per-field
inline-error rendering.
-/

/-- The form value record (interface `Values` in the source). -/
structure Values where
  firstName : String
  lastName : String
  email : String
  password : String
  contactNumbers : List String
  terms : Bool
deriving Repr, DecidableEq

/-- `defaultValues` from the source: every text field empty, no contact
numbers, terms unchecked. -/
def defaultValues : Values :=
  { firstName := ""
    lastName := ""
    email := ""
    password := ""
    contactNumbers := []
    terms := false }

/-- The per-field validation errors produced by the yup schema, as the
resolver hands them to the form state. `contactNumbers` is the
array-level error, `contactNumberItems` the per-entry errors. -/
structure FieldErrors where
  firstName : Option String
  lastName : Option String
  email : Option String
  password : Option String
  contactNumbers : Option String
  contactNumberItems : List (Option String)
  terms : Option String
deriving Repr, DecidableEq

/-- `yup.string().required('First name is required')`. -/
def validateFirstName (s : String) : Option String :=
  if s = "" then some "First name is required" else none

/-- `yup.string().required('Last name is required')`. -/
def validateLastName (s : String) : Option String :=
  if s = "" then some "Last name is required" else none

/-- `yup.string().required('Email is required').email()`. The email-shape
test itself lives in the yup library, outside this repository, so it is
abstracted as the parameter `emailCheck`; the default yup message is
used when it fails. -/
def validateEmail (emailCheck : String → Bool) (s : String) : Option String :=
  if s = "" then some "Email is required"
  else if emailCheck s then none
  else some "email must be a valid email"

/-- `yup.string().required('Password is required').min(6, 'Password should
need to be at least 6 characters')`. -/
def validatePassword (s : String) : Option String :=
  if s = "" then some "Password is required"
  else if s.length < 6 then some "Password should need to be at least 6 characters"
  else none

/-- The item rule `yup.string().required('Contact number is required')`. -/
def validateContactItem (s : String) : Option String :=
  if s = "" then some "Contact number is required" else none

/-- The array-level rule `.min(1, 'At least one contact number is required')`. -/
def validateContactNumbers (l : List String) : Option String :=
  if l.length < 1 then some "At least one contact number is required" else none

/-- `yup.boolean().oneOf([true], 'You must accept the terms and conditions')`. -/
def validateTerms (b : Bool) : Option String :=
  if b then none else some "You must accept the terms and conditions"

/-- The whole `schema` evaluated on a value record, yielding per-field
errors. -/
def validate (emailCheck : String → Bool) (v : Values) : FieldErrors :=
  { firstName := validateFirstName v.firstName
    lastName := validateLastName v.lastName
    email := validateEmail emailCheck v.email
    password := validatePassword v.password
    contactNumbers := validateContactNumbers v.contactNumbers
    contactNumberItems := v.contactNumbers.map validateContactItem
    terms := validateTerms v.terms }

/-- Validation succeeds when no field carries an error. -/
def FieldErrors.isValid (e : FieldErrors) : Bool :=
  e.firstName.isNone && e.lastName.isNone && e.email.isNone &&
    e.password.isNone && e.contactNumbers.isNone &&
    e.contactNumberItems.all Option.isNone && e.terms.isNone

/-- The primitive effects the submit handler can perform, in source
order inside `onSubmit`: toggling the pending flag, calling
`authClient.signUp`, attaching the root error via `setError`, awaiting
`checkSession`, and `router.refresh()`. `onSubmit` contains no write to
any form field, so no field-mutating effect exists. -/
inductive Eff where
  | setPending (b : Bool)
  | signUp (v : Values)
  | setRootError (msg : String)
  | checkSession
  | routerRefresh
deriving Repr, DecidableEq

/-- The effect trace of `onSubmit` once validation has passed, given the
result of `authClient.signUp` (`some e` is an error message, `none` is
success). -/
def onSubmit (signUpResult : Option String) (v : Values) : List Eff :=
  Eff.setPending true :: Eff.signUp v ::
    (match signUpResult with
     | some e => [Eff.setRootError e, Eff.setPending false]
     | none => [Eff.checkSession, Eff.routerRefresh])

/-- `handleSubmit(onSubmit)`: validate against the schema; on failure
surface the per-field errors and perform nothing; on success run
`onSubmit`. Returns the surfaced errors and the effect trace. -/
def submit (emailCheck : String → Bool) (signUpResult : Option String)
    (v : Values) : FieldErrors × List Eff :=
  let errs := validate emailCheck v
  if errs.isValid then (errs, onSubmit signUpResult v) else (errs, [])

/-- The component-local state touched by `onSubmit`: the `isPending`
React state and the root error slot of the form state. -/
structure SubmitState where
  isPending : Bool
  rootError : Option String
deriving Repr, DecidableEq

/-- State before any submission: pending flag down, no root error. -/
def SubmitState.initial : SubmitState :=
  { isPending := false, rootError := none }

/-- Effect of one primitive action on the component state. -/
def applyAction (s : SubmitState) : Eff → SubmitState
  | Eff.setPending b => { s with isPending := b }
  | Eff.setRootError m => { s with rootError := some m }
  | _ => s

/-- Run a trace of actions over the component state. -/
def runActions (s : SubmitState) (as : List Eff) : SubmitState :=
  as.foldl applyAction s

/-- `a` occurs strictly before `b` in the list `xs`. -/
def occursBefore (xs : List Eff) (a b : Eff) : Prop :=
  ∃ i j, i < j ∧ xs.get? i = some a ∧ xs.get? j = some b

/-- Helper text rendered under the First name input (source line 121):
it consults `errors.firstName`. -/
def renderFirstNameHelper (e : FieldErrors) : Option String :=
  e.firstName

/-- Helper text rendered under the Last name input. The source (lines
129 and 132) consults `errors.firstName` here, not `errors.lastName`. -/
def renderLastNameHelper (e : FieldErrors) : Option String :=
  e.firstName

/-- Helper text rendered under the Email input (source line 146). -/
def renderEmailHelper (e : FieldErrors) : Option String :=
  e.email

/-- Helper text rendered under the Password input (source line 157). -/
def renderPasswordHelper (e : FieldErrors) : Option String :=
  e.password

/-- Helper text rendered under the contact-number input at `index`
(source lines 176-178). -/
def renderContactHelper (e : FieldErrors) (i : Nat) : Option String :=
  (e.contactNumberItems.get? i).getD none

/-- Helper text rendered under the terms checkbox (source line 214). -/
def renderTermsHelper (e : FieldErrors) : Option String :=
  e.terms

/-- The root alert (source line 218) shows `errors.root.message` when a
root error is set. -/
def renderRootAlert (s : SubmitState) : Option String :=
  s.rootError

/-- One contact-number input row is rendered per entry of the field
array (`fields.map`, source lines 166-192). -/
def renderedContactCount (fields : List String) : Nat :=
  fields.length

/-- The Remove button click (source lines 183-190): the button is
disabled when `fields.length === 1`, so the click removes the entry at
`index` only when the length is not exactly one. -/
def removeClick (fields : List String) (i : Nat) : List String :=
  if fields.length = 1 then fields else fields.eraseIdx i

/-- The list-level effect of the Add Contact Number button:
`append('')` adds one empty entry at the end. -/
def appendFields (fields : List String) : List String :=
  fields ++ [""]

/-- The Add Contact Number button click (source lines 193-199) on the
whole value record. -/
def appendClick (v : Values) : Values :=
  { v with contactNumbers := appendFields v.contactNumbers }

/-- The contact-number lists reachable through the UI: the initial list
from `defaultValues` and closure under the two button clicks. -/
inductive ReachableFields : List String → Prop where
  | init : ReachableFields defaultValues.contactNumbers
  | app : ∀ {fs : List String}, ReachableFields fs →
      ReachableFields (appendFields fs)
  | rem : ∀ {fs : List String} (i : Nat), ReachableFields fs →
      ReachableFields (removeClick fs i)

/-- A record that passes every schema rule, used to exercise the valid
branch of `submit`. -/
def validValues : Values :=
  { firstName := "John"
    lastName := "Doe"
    email := "john@example.com"
    password := "secret1"
    contactNumbers := ["0771234567"]
    terms := true }

/-- A record whose only invalid field is the empty last name. -/
def c4Input : Values :=
  { firstName := "Ada"
    lastName := ""
    email := "ada@example.com"
    password := "secret1"
    contactNumbers := ["0771234567"]
    terms := true }

theorem trace_of_valid (emailCheck : String → Bool) (r : Option String)
    (v : Values) (h : (validate emailCheck v).isValid = true) :
    (submit emailCheck r v).2 = onSubmit r v := by
  simp [submit, h]

/-- C1: when validation of the form state against the schema fails, the
surfaced errors are exactly the schema's per-field errors and the effect
trace is empty, so the auth collaborator's sign-up operation is never
called with invalid data. -/
theorem submit_invalid_aborts (emailCheck : String → Bool)
    (r : Option String) (v : Values)
    (h : (validate emailCheck v).isValid = false) :
    submit emailCheck r v = (validate emailCheck v, []) := by
  simp [submit, h]

theorem submit_invalid_aborts_witness :
    submit (fun _ => true) none defaultValues =
      (validate (fun _ => true) defaultValues, []) :=
  submit_invalid_aborts (fun _ => true) none defaultValues (by decide)

/-- C2: when validation passes and the sign-up call returns an error
message `e`, running the submit trace leaves the root error slot at `e`
(so the root alert displays `e`) and the pending flag cleared, and the
trace contains neither a session refresh nor a route refresh. -/
theorem submit_auth_error (emailCheck : String → Bool) (v : Values)
    (e : String) (h : (validate emailCheck v).isValid = true) :
    runActions SubmitState.initial (submit emailCheck (some e) v).2 =
      { isPending := false, rootError := some e } ∧
    renderRootAlert
      (runActions SubmitState.initial (submit emailCheck (some e) v).2) =
      some e ∧
    Eff.checkSession ∉ (submit emailCheck (some e) v).2 ∧
    Eff.routerRefresh ∉ (submit emailCheck (some e) v).2 := by
  rw [trace_of_valid emailCheck (some e) v h]
  refine ⟨rfl, rfl, ?_, ?_⟩ <;> simp [onSubmit]

theorem submit_auth_error_witness :
    runActions SubmitState.initial
        (submit (fun _ => true) (some "Something went wrong") validValues).2 =
      { isPending := false, rootError := some "Something went wrong" } ∧
    renderRootAlert
      (runActions SubmitState.initial
        (submit (fun _ => true) (some "Something went wrong") validValues).2) =
      some "Something went wrong" ∧
    Eff.checkSession ∉
      (submit (fun _ => true) (some "Something went wrong") validValues).2 ∧
    Eff.routerRefresh ∉
      (submit (fun _ => true) (some "Something went wrong") validValues).2 :=
  submit_auth_error (fun _ => true) validValues "Something went wrong"
    (by decide)

/-- C3: when validation passes and the sign-up call returns no error,
the session-refresh call occurs strictly before the route refresh in the
submit trace. -/
theorem submit_success_order (emailCheck : String → Bool) (v : Values)
    (h : (validate emailCheck v).isValid = true) :
    occursBefore (submit emailCheck none v).2
      Eff.checkSession Eff.routerRefresh := by
  rw [trace_of_valid emailCheck none v h]
  exact ⟨2, 3, by omega, rfl, rfl⟩

theorem submit_success_order_witness :
    occursBefore (submit (fun _ => true) none validValues).2
      Eff.checkSession Eff.routerRefresh :=
  submit_success_order (fun _ => true) validValues (by decide)

/-- C8: when validation passes and the sign-up call succeeds, the trace
is exactly pending-up, sign-up, session refresh, route refresh: the
pending flag is set before the sign-up call, it is never cleared, and no
action writes any form field or the root error. -/
theorem submit_success_frame (emailCheck : String → Bool) (v : Values)
    (h : (validate emailCheck v).isValid = true) :
    (submit emailCheck none v).2 =
      [Eff.setPending true, Eff.signUp v,
        Eff.checkSession, Eff.routerRefresh] ∧
    occursBefore (submit emailCheck none v).2
      (Eff.setPending true) (Eff.signUp v) ∧
    Eff.setPending false ∉ (submit emailCheck none v).2 ∧
    runActions SubmitState.initial (submit emailCheck none v).2 =
      { isPending := true, rootError := none } := by
  rw [trace_of_valid emailCheck none v h]
  refine ⟨rfl, ⟨0, 1, by omega, rfl, rfl⟩, ?_, rfl⟩
  simp [onSubmit]

theorem submit_success_frame_witness :
    (submit (fun _ => true) none validValues).2 =
      [Eff.setPending true, Eff.signUp validValues,
        Eff.checkSession, Eff.routerRefresh] ∧
    occursBefore (submit (fun _ => true) none validValues).2
      (Eff.setPending true) (Eff.signUp validValues) ∧
    Eff.setPending false ∉ (submit (fun _ => true) none validValues).2 ∧
    runActions SubmitState.initial (submit (fun _ => true) none validValues).2 =
      { isPending := true, rootError := none } :=
  submit_success_frame (fun _ => true) validValues (by decide)

/-- C4 (code evaluated at the failing input): with first name filled and
last name empty, the schema assigns the last-name error, yet the Last
name field renders no helper text because the source consults
`errors.firstName` there; the other fields do show their own errors. -/
theorem lastName_helper_mismatch :
    (validate (fun _ => true) c4Input).lastName = some "Last name is required" ∧
    renderLastNameHelper (validate (fun _ => true) c4Input) = none ∧
    renderFirstNameHelper (validate (fun _ => true) c4Input) =
      (validate (fun _ => true) c4Input).firstName ∧
    renderEmailHelper (validate (fun _ => true) c4Input) =
      (validate (fun _ => true) c4Input).email := by
  decide

/-- C5 (counterexample): the initial contact-number list of the form is
reachable and empty, so the claimed invariant that every reachable state
holds at least one entry fails at the initial state. -/
theorem reachable_empty_contacts :
    ReachableFields ([] : List String) ∧
    renderedContactCount ([] : List String) < 1 :=
  ⟨ReachableFields.init, by decide⟩

/-- C5 (amended): the Remove button is disabled when exactly one entry
remains, so a click removes nothing in that state: the last remaining
entry is never removable, although the list itself starts empty. -/
theorem remove_last_disabled (fields : List String) (i : Nat)
    (h : fields.length = 1) : removeClick fields i = fields := by
  simp [removeClick, h]

theorem remove_last_disabled_witness :
    removeClick ["0771234567"] 0 = ["0771234567"] :=
  remove_last_disabled ["0771234567"] 0 (by decide)

/-- C6: a non-empty password shorter than 6 characters yields the
password length error, and a password of 6 or more characters never
yields that length error. -/
theorem password_validation (emailCheck : String → Bool) (v : Values) :
    (v.password ≠ "" → v.password.length < 6 →
      (validate emailCheck v).password =
        some "Password should need to be at least 6 characters") ∧
    (6 ≤ v.password.length →
      (validate emailCheck v).password ≠
        some "Password should need to be at least 6 characters") := by
  constructor
  · intro hne hlt
    simp [validate, validatePassword, hne, hlt]
  · intro hge
    have hne : v.password ≠ "" := by
      intro hempty
      rw [hempty] at hge
      simp at hge
    have hnlt : ¬ v.password.length < 6 := by omega
    simp [validate, validatePassword, hne, hnlt]

theorem password_validation_witness :
    (validate (fun _ => true)
        { validValues with password := "abc" }).password =
      some "Password should need to be at least 6 characters" ∧
    (validate (fun _ => true) validValues).password ≠
      some "Password should need to be at least 6 characters" :=
  ⟨(password_validation (fun _ => true)
      { validValues with password := "abc" }).1 (by decide) (by decide),
    (password_validation (fun _ => true) validValues).2 (by decide)⟩

/-- C7: a contact-number list with fewer than one entry yields the
array-level contact-number error. -/
theorem contactNumbers_min_error (emailCheck : String → Bool) (v : Values)
    (h : v.contactNumbers.length < 1) :
    (validate emailCheck v).contactNumbers =
      some "At least one contact number is required" := by
  simp [validate, validateContactNumbers, h]

theorem contactNumbers_min_error_witness :
    (validate (fun _ => true) defaultValues).contactNumbers =
      some "At least one contact number is required" :=
  contactNumbers_min_error (fun _ => true) defaultValues (by decide)

/-- C9: the Add Contact Number click appends exactly one empty entry at
the end of the contact-number list and leaves every existing entry and
every other form field unchanged. -/
theorem appendClick_adds_empty_entry (v : Values) :
    (appendClick v).contactNumbers = v.contactNumbers ++ [""] ∧
    (appendClick v).contactNumbers.length = v.contactNumbers.length + 1 ∧
    (appendClick v).firstName = v.firstName ∧
    (appendClick v).lastName = v.lastName ∧
    (appendClick v).email = v.email ∧
    (appendClick v).password = v.password ∧
    (appendClick v).terms = v.terms := by
  simp [appendClick, appendFields]

/-- C10: the initial form state has every text field empty, terms
unchecked and no contact numbers, so zero contact-number inputs are
rendered initially. -/
theorem defaultValues_initial_state :
    defaultValues.firstName = "" ∧
    defaultValues.lastName = "" ∧
    defaultValues.email = "" ∧
    defaultValues.password = "" ∧
    defaultValues.terms = false ∧
    defaultValues.contactNumbers = [] ∧
    renderedContactCount defaultValues.contactNumbers = 0 := by
  decide
